import Mathlib

/-!
Verification of the v2ex-terminal crawler and refresh loop.

The development shallowly embeds the two Rust source files:

* `src/crawler.rs` — HTML topic extraction (`parse_v2ex_page`,
  `parse_v2ex_cell_item_topic_info`, `get_v2ex_page`, the `V2exTopic`
  data model);
* `src/main.rs` — the refresh coordinator (`run_app`'s spawned task,
  `AppState::set_data`, the `data` polling function).

HTML documents are modelled as rose trees of elements.  The external
html5ever parser (`Html::parse_document`) is total and error-tolerant,
so the embedding starts from the parsed element tree.  The `scraper`
selector calls used by the code are class and tag selectors; `select`
on an element yields its strict descendants in document (preorder)
order, and `select` on a document yields the root and its descendants.

Rust `Result` plus the possibility of an `unwrap` panic is modelled by
the three-valued type `Res`: `ok`, `err` (a `Result::Err` propagated
with the question-mark operator) and `panic` (an `Option::unwrap` or
similar panic).  Both `err` and `panic` abort the computation they
occur in; they stay distinguishable so that theorems can separate
"surfaced as an error value" from "crashed".
-/

set_option autoImplicit false

/-- One HTML element: tag name, class list, attribute list, and its
inner HTML rendered as a string (used by `inner_html()` in the code). -/
structure ElemData where
  tag : String
  classes : List String
  attrs : List (String × String)
  innerHtml : String
deriving Repr, DecidableEq

/-- An HTML element tree node: element data plus child elements. -/
inductive HElem where
  | node : ElemData → List HElem → HElem
deriving Repr

def HElem.data : HElem → ElemData
  | .node d _ => d

def HElem.children : HElem → List HElem
  | .node _ c => c

/-- Inner HTML of an element (`ElementRef::inner_html`). -/
def HElem.innerHtml (e : HElem) : String := e.data.innerHtml

mutual

/-- All strict descendants of an element, in document (preorder) order:
this is the traversal order of `scraper`'s `ElementRef::select`. -/
def HElem.descendants : HElem → List HElem
  | .node _ cs => HElem.descList cs

/-- Preorder flattening of a forest of sibling elements. -/
def HElem.descList : List HElem → List HElem
  | [] => []
  | c :: cs => c :: (HElem.descendants c ++ HElem.descList cs)

end

/-- First attribute value with the given name
(`Element::attr` in `scraper`). -/
def HElem.attr (e : HElem) (name : String) : Option String :=
  (e.data.attrs.find? (fun p => p.1 == name)).map Prod.snd

def HElem.hasClass (e : HElem) (c : String) : Bool :=
  e.data.classes.contains c

/-- `ElementRef::select`: strict descendants matching a selector,
in document order. -/
def HElem.select (e : HElem) (p : HElem → Bool) : List HElem :=
  (HElem.descendants e).filter p

/-- `Html::select` on the whole document: the root element and all its
descendants, filtered by the selector, in document order. -/
def Html.selectAll (doc : HElem) (p : HElem → Bool) : List HElem :=
  (doc :: HElem.descendants doc).filter p

/-- The selector `.cell.item` (crawler.rs line 62). -/
def selCellItem (e : HElem) : Bool :=
  e.hasClass "cell" && e.hasClass "item"

/-- The selector `.topic-link` (crawler.rs line 64). -/
def selTopicLink (e : HElem) : Bool :=
  e.hasClass "topic-link"

/-- The selector `.topic_info` (crawler.rs line 71). -/
def selTopicInfo (e : HElem) : Bool :=
  e.hasClass "topic_info"

/-- A tag-name selector such as `strong`, `a`, `span`
(crawler.rs lines 101-127). -/
def selTag (t : String) (e : HElem) : Bool :=
  e.data.tag == t

/-- Rust computation outcome: a success, a propagated `Result::Err`,
or a panic (from `Option::unwrap` on `None`). -/
inductive Res (α : Type) where
  | ok : α → Res α
  | err : String → Res α
  | panic : String → Res α
deriving Repr, DecidableEq

/-- Panic message of `Option::unwrap` on a `None` value. -/
def unwrapMsg : String := "called Option.unwrap on a None value"

/-- Error message of the chrono parse error propagated from
crawler.rs line 124. -/
def tsErrMsg : String := "input contains invalid characters"

/-- Splits a character list at every occurrence of `sep`, keeping empty
pieces, exactly like Rust `str::split` with a `char` pattern. -/
def splitChar (sep : Char) : List Char → List (List Char)
  | [] => [[]]
  | c :: rest =>
    let r := splitChar sep rest
    if c == sep then [] :: r
    else
      match r with
      | [] => [[c]]
      | piece :: more => (c :: piece) :: more

/-- Rust `str::split(sep)` collected to a list. -/
def rustSplit (sep : Char) (s : String) : List String :=
  (splitChar sep s.toList).map (fun cs => String.mk cs)

/-- Rust `str::parse::<i32>()`: an optional sign followed by one or
more ASCII digits, with the value required to fit in an `i32`. -/
def parseI32 (s : String) : Option Int :=
  let cs := s.toList
  let signed :=
    match cs with
    | '+' :: rest => (false, rest)
    | '-' :: rest => (true, rest)
    | _ => (false, cs)
  let ds := signed.2
  if ds.isEmpty || !(ds.all Char.isDigit) then none
  else
    let n : Nat := ds.foldl (fun acc c => acc * 10 + (c.toNat - 48)) 0
    let v : Int := if signed.1 then -(Int.ofNat n) else Int.ofNat n
    if -(2 ^ 31) ≤ v ∧ v ≤ 2 ^ 31 - 1 then some v else none

/-- A `chrono` `DateTime<FixedOffset>`: a civil date-time together with
an explicit UTC offset in minutes. -/
structure DateTimeFixedOffset where
  year : Int
  month : Nat
  day : Nat
  hour : Nat
  minute : Nat
  second : Nat
  offsetMinutes : Int
deriving Repr, DecidableEq

def isLeapYear (y : Int) : Bool :=
  (y % 4 == 0 && y % 100 != 0) || y % 400 == 0

def daysInMonth (y : Int) (m : Nat) : Nat :=
  if m == 2 then (if isLeapYear y then 29 else 28)
  else if m == 4 || m == 6 || m == 9 || m == 11 then 30
  else 31

/-- Days since 1970-01-01 of a civil date
(standard days-from-civil algorithm). -/
def daysFromCivil (y : Int) (m : Nat) (d : Nat) : Int :=
  let yy := if m ≤ 2 then y - 1 else y
  let era := (if 0 ≤ yy then yy else yy - 399) / 400
  let yoe := yy - era * 400
  let mp : Int := (Int.ofNat m + 9) % 12
  let doy := (153 * mp + 2) / 5 + Int.ofNat d - 1
  let doe := yoe * 365 + yoe / 4 - yoe / 100 + doy
  era * 146097 + doe - 719468

/-- The absolute instant of a `DateTime<FixedOffset>` as Unix seconds:
two values denote the same instant iff these agree. -/
def DateTimeFixedOffset.toUtcSeconds (dt : DateTimeFixedOffset) : Int :=
  daysFromCivil dt.year dt.month dt.day * 86400
    + Int.ofNat (dt.hour * 3600 + dt.minute * 60 + dt.second)
    - dt.offsetMinutes * 60

def expectChar (c : Char) : List Char → Option (List Char)
  | x :: rest => if x == c then some rest else none
  | [] => none

def digitVal (c : Char) : Option Nat :=
  if c.isDigit then some (c.toNat - 48) else none

def parse2 : List Char → Option (Nat × List Char)
  | a :: b :: rest =>
    match digitVal a, digitVal b with
    | some x, some y => some (10 * x + y, rest)
    | _, _ => none
  | _ => none

def parse4 (cs : List Char) : Option (Nat × List Char) :=
  match parse2 cs with
  | none => none
  | some (hi, cs1) =>
    match parse2 cs1 with
    | none => none
    | some (lo, cs2) => some (100 * hi + lo, cs2)

def parseSign : List Char → Option (Int × List Char)
  | '+' :: rest => some (1, rest)
  | '-' :: rest => some (-1, rest)
  | _ => none

def skipColon : List Char → List Char
  | ':' :: rest => rest
  | cs => cs

/-- Parses a two-digit field followed by the separator `c`. -/
def parse2Sep (c : Char) (cs : List Char) : Option (Nat × List Char) :=
  match parse2 cs with
  | none => none
  | some (v, rest) =>
    match expectChar c rest with
    | none => none
    | some rest2 => some (v, rest2)

/-- Parses the date part `YYYY-MM-DD ` (trailing space included). -/
def parseDatePart (cs : List Char) : Option (Nat × Nat × Nat × List Char) :=
  match parse4 cs with
  | none => none
  | some (y, cs1) =>
    match expectChar '-' cs1 with
    | none => none
    | some cs2 =>
      match parse2Sep '-' cs2 with
      | none => none
      | some (mo, cs3) =>
        match parse2Sep ' ' cs3 with
        | none => none
        | some (d, cs4) => some (y, mo, d, cs4)

/-- Parses the time part `HH:MM:SS ` (trailing space included). -/
def parseTimePart (cs : List Char) : Option (Nat × Nat × Nat × List Char) :=
  match parse2Sep ':' cs with
  | none => none
  | some (h, cs1) =>
    match parse2Sep ':' cs1 with
    | none => none
    | some (mi, cs2) =>
      match parse2Sep ' ' cs2 with
      | none => none
      | some (sec, cs3) => some (h, mi, sec, cs3)

/-- Parses the offset part `±HHMM` (chrono also tolerates `±HH:MM`). -/
def parseOffsetPart (cs : List Char) : Option (Int × Nat × Nat × List Char) :=
  match parseSign cs with
  | none => none
  | some (sign, cs1) =>
    match parse2 cs1 with
    | none => none
    | some (oh, cs2) =>
      match parse2 (skipColon cs2) with
      | none => none
      | some (om, cs3) => some (sign, oh, om, cs3)

/-- `chrono::DateTime::parse_from_str` with the fixed format
`"%Y-%m-%d %H:%M:%S %z"` (crawler.rs line 124): a four-digit year,
two-digit month, day, hour, minute and second, then a sign and a
four-digit offset `±HHMM` (chrono also tolerates `±HH:MM`).  The whole
input must be consumed and the fields must denote a valid date-time;
otherwise the parse fails. -/
def chronoParseTs (s : String) : Option DateTimeFixedOffset :=
  match parseDatePart s.toList with
  | none => none
  | some (y, mo, d, cs1) =>
    match parseTimePart cs1 with
    | none => none
    | some (h, mi, sec, cs2) =>
      match parseOffsetPart cs2 with
      | none => none
      | some (sign, oh, om, cs3) =>
        if cs3.isEmpty
            ∧ 1 ≤ mo ∧ mo ≤ 12 ∧ 1 ≤ d ∧ d ≤ daysInMonth (Int.ofNat y) mo
            ∧ h ≤ 23 ∧ mi ≤ 59 ∧ sec ≤ 59
            ∧ om ≤ 59 ∧ oh * 60 + om ≤ 1439 then
          some { year := Int.ofNat y, month := mo, day := d, hour := h,
                 minute := mi, second := sec,
                 offsetMinutes := sign * Int.ofNat (oh * 60 + om) }
        else none

/-- `V2exNode` (crawler.rs lines 6-10). -/
structure V2exNode where
  name : String
  sub_url : String
deriving Repr, DecidableEq

/-- `V2exUser` (crawler.rs lines 12-16). -/
structure V2exUser where
  name : String
  sub_url : String
deriving Repr, DecidableEq

/-- `V2exTopic` (crawler.rs lines 18-27). -/
structure V2exTopic where
  id : Int
  title : String
  short_url : String
  node : V2exNode
  send_user : V2exUser
  send_time : DateTimeFixedOffset
  last_reply_user : V2exUser
deriving Repr, DecidableEq

/-- `parse_v2ex_cell_item_topic_info` (crawler.rs lines 100-134).
Each `unwrap` on a missing element or attribute is a `Res.panic`; the
only question-mark propagation is the chrono timestamp parse at line
124, which is a `Res.err`.  The lookups happen in source order:
first `a` descendant (line 102), first `strong` (line 103), first
`span` (line 104), last `strong` (line 105), the node link `href`
(line 108), the author link inside the first `strong` (lines 117-120),
the `title` attribute and timestamp parse (line 124), and the reply
link inside the last `strong` (lines 127-130). -/
def parse_v2ex_cell_item_topic_info (topic_info_span : HElem) :
    Res (V2exNode × V2exUser × DateTimeFixedOffset × V2exUser) :=
  let all_strong_nodes := topic_info_span.select (selTag "strong")
  match (topic_info_span.select (selTag "a")).head? with
  | none => .panic unwrapMsg
  | some node_a =>
  match all_strong_nodes.head? with
  | none => .panic unwrapMsg
  | some node_strong =>
  match (topic_info_span.select (selTag "span")).head? with
  | none => .panic unwrapMsg
  | some node_span =>
  match all_strong_nodes.getLast? with
  | none => .panic unwrapMsg
  | some node_strong2 =>
  match node_a.attr "href" with
  | none => .panic unwrapMsg
  | some node_a_href =>
  match (node_strong.select (selTag "a")).head? with
  | none => .panic unwrapMsg
  | some inner_a =>
  match inner_a.attr "href" with
  | none => .panic unwrapMsg
  | some inner_a_href =>
  match node_span.attr "title" with
  | none => .panic unwrapMsg
  | some title_attr =>
  match chronoParseTs title_attr with
  | none => .err tsErrMsg
  | some send_time =>
  match (node_strong2.select (selTag "a")).head? with
  | none => .panic unwrapMsg
  | some inner_a2 =>
  match inner_a2.attr "href" with
  | none => .panic unwrapMsg
  | some inner_a2_href =>
    .ok (⟨node_a.innerHtml, node_a_href⟩,
         ⟨inner_a.innerHtml, inner_a_href⟩,
         send_time,
         ⟨inner_a2.innerHtml, inner_a2_href⟩)

/-- Derivation of the topic id from the permalink path
(crawler.rs lines 76-78):
`href.split('/').nth(2).and_then(|s| s.split('#').next().and_then(parse))`. -/
def topicIdFromHref (href : String) : Option Int :=
  ((rustSplit '/' href)[2]?).bind fun seg =>
    ((rustSplit '#' seg).head?).bind fun numPart => parseI32 numPart

/-- The loop body of `parse_v2ex_page` for one `.cell.item` candidate
(crawler.rs lines 63-89): `unwrap` of the `.topic-link` element
(line 64), `unwrap` of its `href` (line 66), `unwrap` of the
`.topic_info` element (line 71), question-mark propagation of
`parse_v2ex_cell_item_topic_info` (line 72), then assembly of the
`V2exTopic` with `id = topic_id.unwrap_or(0)` (lines 80-88). -/
def extractCellItem (cell : HElem) : Res V2exTopic :=
  match (cell.select selTopicLink).head? with
  | none => .panic unwrapMsg
  | some a =>
  match a.attr "href" with
  | none => .panic unwrapMsg
  | some href =>
  match (cell.select selTopicInfo).head? with
  | none => .panic unwrapMsg
  | some topic_info_span =>
  match parse_v2ex_cell_item_topic_info topic_info_span with
  | .err e => .err e
  | .panic m => .panic m
  | .ok (v2ex_node, send_user, send_time, last_reply_user) =>
    .ok { title := a.innerHtml,
          short_url := href,
          id := (topicIdFromHref href).getD 0,
          node := v2ex_node,
          send_user := send_user,
          send_time := send_time,
          last_reply_user := last_reply_user }

/-- The `for` loop of `parse_v2ex_page` (crawler.rs lines 62-90): the
candidates are processed in document order, each pushing one topic;
an `err` or `panic` in a candidate aborts the whole loop. -/
def parseCellItems : List HElem → Res (List V2exTopic)
  | [] => .ok []
  | c :: rest =>
    match extractCellItem c with
    | .err e => .err e
    | .panic m => .panic m
    | .ok t =>
      match parseCellItems rest with
      | .err e => .err e
      | .panic m => .panic m
      | .ok ts => .ok (t :: ts)

/-- `parse_v2ex_page` (crawler.rs lines 58-93), starting from the
parsed document tree (html5ever's `Html::parse_document` is total):
select every `.cell.item` element of the document and run the loop
body on each. -/
def parse_v2ex_page (document : HElem) : Res (List V2exTopic) :=
  parseCellItems (Html.selectAll document selCellItem)

/-- `AppState` (main.rs lines 49-54). -/
structure AppState where
  current_page : Nat
  data : Option (List V2exTopic)
  loading_state : Nat
deriving Repr, DecidableEq

/-- `AppState::new` (main.rs lines 57-59). -/
def AppState.new : AppState :=
  { current_page := 1, loading_state := 1, data := none }

/-- `AppState::set_data` (main.rs lines 61-63): replaces the stored
topic list wholesale. -/
def AppState.set_data (s : AppState) (d : List V2exTopic) : AppState :=
  { s with data := some d }

/-- Outcome of `get_v2ex_page` as observed by the spawned task
(main.rs line 74): a transport-level failure, a UTF-8 decode failure,
or the fetched page already parsed into a document tree. -/
inductive FetchOutcome where
  | transportError
  | decodeError
  | ok (document : HElem)

/-- What the spawned background task (main.rs lines 73-85) sends on
the handoff channel for a given fetch outcome: on a fetch failure or
a parse error the task logs and returns without sending; if the parse
panics, the task dies without sending (a panic in a spawned task is
isolated from the foreground loop); only a fully parsed topic list is
sent. -/
def cycleMessage : FetchOutcome → Option (List V2exTopic)
  | .transportError => none
  | .decodeError => none
  | .ok doc =>
    match parse_v2ex_page doc with
    | .ok ts => some ts
    | .err _ => none
    | .panic _ => none

/-- The `data` function (main.rs lines 128-130): one non-blocking poll
of the channel; `try_recv` either yields a topic list, which is passed
to `set_data`, or nothing, leaving the state untouched. -/
def dataStep (app : AppState) (received : Option (List V2exTopic)) : AppState :=
  match received with
  | some v => app.set_data v
  | none => app

/-- The proxy URL hardcoded in `get_v2ex_page` (crawler.rs line 49). -/
def PROXY_URL : String := "http://127.0.0.1:7890"

/-- The request URL built by `get_v2ex_page` (crawler.rs line 51). -/
def pageUrl (page : Int) : String :=
  "https://www.v2ex.com/?p=" ++ toString page

/-- Behaviour of the external `reqwest` library, abstracted: whether
`Proxy::all` accepts a given proxy URL, whether `Client::builder().build()`
succeeds, and the response body (or transport/decode failure) for a
GET to a given URL. -/
structure HttpEnv where
  proxyOk : String → Bool
  clientBuildOk : Bool
  send : String → Res String

/-- `get_v2ex_page` (crawler.rs lines 47-56) relative to an `HttpEnv`:
build the proxy from the hardcoded `PROXY_URL` (question mark on
failure), build the client (question mark on failure), then issue a
single GET to `pageUrl page`.  The second component records the
requests actually issued. -/
def get_v2ex_page (env : HttpEnv) (page : Int) : Res String × List String :=
  if env.proxyOk PROXY_URL then
    if env.clientBuildOk then
      (env.send (pageUrl page), [pageUrl page])
    else (.err "client build failed", [])
  else (.err "invalid proxy", [])

/-- The page index fetched by the background task
(main.rs line 70: `let current_page = 1;`). -/
def CURRENT_PAGE : Int := 1

/-- The cycles spawned over one run of `run_app`: exactly one
`tokio::task::spawn` (main.rs line 73), for `CURRENT_PAGE`. -/
def spawnedCycles : List Int := [CURRENT_PAGE]

/-- All messages the background task ever sends on the channel during
one run, for a given fetch outcome: the single send at main.rs line 84,
or nothing. -/
def channelMessages (f : FetchOutcome) : List (List V2exTopic) :=
  match cycleMessage f with
  | some ts => [ts]
  | none => []

/-- Number of `set_data` invocations the foreground loop performs for
a given sequence of `try_recv` results: one per received message. -/
def setDataCount (recvs : List (Option (List V2exTopic))) : Nat :=
  (recvs.filterMap id).length

/-- Helper to build an element tree node. -/
def el (tag : String) (classes : List String)
    (attrs : List (String × String)) (innerHtml : String)
    (children : List HElem) : HElem :=
  .node ⟨tag, classes, attrs, innerHtml⟩ children

/-- Fixture: the category link of a topic-info fragment. -/
def nodeLinkCareer : HElem := el "a" ["node"] [("href", "/go/career")] "career" []

/-- Fixture: an author emphasis element wrapping a member link. -/
def strongAlice : HElem :=
  el "strong" [] [] "" [el "a" [] [("href", "/member/alice")] "alice" []]

/-- Fixture: a last-reply emphasis element wrapping a member link. -/
def strongBob : HElem :=
  el "strong" [] [] "" [el "a" [] [("href", "/member/bob")] "bob" []]

/-- Fixture: a timestamp span with a well-formed machine-readable
`title` attribute. -/
def timeSpanGood : HElem :=
  el "span" [] [("title", "2023-07-19 19:15:44 +0800")] "1 hour ago" []

/-- Fixture: a timestamp span whose `title` attribute is unparsable. -/
def timeSpanBad : HElem :=
  el "span" [] [("title", "not-a-date")] "sometime" []

/-- Fixture: a timestamp span with no `title` attribute at all. -/
def timeSpanNoAttr : HElem := el "span" [] [] "sometime" []

/-- Fixture: a fully well-formed topic-info fragment. -/
def goodInfo : HElem :=
  el "span" ["topic_info"] [] "" [nodeLinkCareer, strongAlice, timeSpanGood, strongBob]

/-- Fixture: a topic-info fragment whose timestamp value is unparsable. -/
def badTsInfo : HElem :=
  el "span" ["topic_info"] [] "" [nodeLinkCareer, strongAlice, timeSpanBad, strongBob]

/-- Fixture: a topic-info fragment whose timestamp span has no `title`
attribute. -/
def noTitleAttrInfo : HElem :=
  el "span" ["topic_info"] [] "" [nodeLinkCareer, strongAlice, timeSpanNoAttr, strongBob]

/-- Fixture: a topic-info fragment with exactly one emphasis element
(a thread with no replies). -/
def oneStrongInfo : HElem :=
  el "span" ["topic_info"] [] "" [nodeLinkCareer, strongAlice, timeSpanGood]

/-- Fixture: a title link with the numeric thread path of §8. -/
def titleLink958255 : HElem :=
  el "a" ["topic-link"] [("href", "/t/958255#reply0")] "hello world" []

/-- Fixture: a title link whose thread path parses to a negative id. -/
def titleLinkNeg : HElem :=
  el "a" ["topic-link"] [("href", "/t/-1")] "negative id" []

/-- Fixture: a title link whose path has no numeric segment. -/
def titleLinkNoNum : HElem :=
  el "a" ["topic-link"] [("href", "/about")] "about page" []

/-- Fixture: a fully well-formed `.cell.item` candidate. -/
def goodCand : HElem :=
  el "div" ["cell", "item"] [] "" [titleLink958255, goodInfo]

/-- Fixture: a candidate whose timestamp attribute is unparsable. -/
def badTsCand : HElem :=
  el "div" ["cell", "item"] [] "" [titleLink958255, badTsInfo]

/-- Fixture: a candidate with a negative numeric thread path. -/
def negCand : HElem :=
  el "div" ["cell", "item"] [] "" [titleLinkNeg, goodInfo]

/-- Fixture: a candidate whose permalink has no numeric segment. -/
def noNumCand : HElem :=
  el "div" ["cell", "item"] [] "" [titleLinkNoNum, goodInfo]

/-- Fixture: a candidate with no `.topic-link` element. -/
def noTitleLinkCand : HElem :=
  el "div" ["cell", "item"] [] "" [goodInfo]

/-- Fixture: a candidate with no `.topic_info` fragment. -/
def noInfoCand : HElem :=
  el "div" ["cell", "item"] [] "" [titleLink958255]

/-- Fixture: a candidate whose topic-info fragment has exactly one
emphasis element. -/
def oneStrongCand : HElem :=
  el "div" ["cell", "item"] [] "" [titleLink958255, oneStrongInfo]

/-- Wraps candidate cells in the `html`/`body` elements that
`Html::parse_document` always produces. -/
def htmlDoc (cands : List HElem) : HElem :=
  el "html" [] [] "" [el "body" [] [] "" cands]

/-- Fixture page: an unparsable-timestamp candidate followed by a
well-formed candidate. -/
def docBadTsThenGood : HElem := htmlDoc [badTsCand, goodCand]

/-- Fixture page: a candidate missing its topic-info fragment,
followed by a well-formed candidate. -/
def docNoInfoThenGood : HElem := htmlDoc [noInfoCand, goodCand]

/-- Fixture page: a candidate missing its title link, followed by a
well-formed candidate. -/
def docNoTitleThenGood : HElem := htmlDoc [noTitleLinkCand, goodCand]

/-- Fixture page: a single candidate with a negative thread id. -/
def docNeg : HElem := htmlDoc [negCand]

/-- Fixture page: a well-formed candidate followed by a candidate
with no numeric path segment. -/
def docGood : HElem := htmlDoc [goodCand, noNumCand]

/-- Expected extracted category of the fixtures. -/
def nodeCareer : V2exNode := ⟨"career", "/go/career"⟩

/-- Expected extracted author of the fixtures. -/
def userAlice : V2exUser := ⟨"alice", "/member/alice"⟩

/-- Expected extracted last-reply user of the fixtures. -/
def userBob : V2exUser := ⟨"bob", "/member/bob"⟩

/-- Expected parse of `"2023-07-19 19:15:44 +0800"`: the civil fields
with a `+08:00` (480-minute) offset. -/
def dtGood : DateTimeFixedOffset := ⟨2023, 7, 19, 19, 15, 44, 480⟩

/-- Expected topic extracted from `goodCand`. -/
def goodTopic : V2exTopic :=
  ⟨958255, "hello world", "/t/958255#reply0", nodeCareer, userAlice, dtGood, userBob⟩

/-- Expected topic extracted from `negCand`. -/
def negTopic : V2exTopic :=
  ⟨-1, "negative id", "/t/-1", nodeCareer, userAlice, dtGood, userBob⟩

/-- Expected topic extracted from `noNumCand`. -/
def noNumTopic : V2exTopic :=
  ⟨0, "about page", "/about", nodeCareer, userAlice, dtGood, userBob⟩

/-- Every outcome of the topic-info extractor is a panic with the
unwrap message, the timestamp parse error, or a success: these are the
only exit points of crawler.rs lines 100-134. -/
theorem info_cases (s : HElem) :
    parse_v2ex_cell_item_topic_info s = Res.panic unwrapMsg
    ∨ parse_v2ex_cell_item_topic_info s = Res.err tsErrMsg
    ∨ ∃ v, parse_v2ex_cell_item_topic_info s = Res.ok v := by
  simp only [parse_v2ex_cell_item_topic_info]
  repeat' split
  all_goals first
    | exact Or.inl rfl
    | exact Or.inr (Or.inl rfl)
    | exact Or.inr (Or.inr ⟨_, rfl⟩)

/-- The only error value the topic-info extractor ever returns is the
timestamp parse error. -/
theorem info_err_msg (s : HElem) (e : String)
    (h : parse_v2ex_cell_item_topic_info s = Res.err e) : e = tsErrMsg := by
  rcases info_cases s with hc | hc | ⟨v, hc⟩ <;> rw [h] at hc
  · simp at hc
  · exact Res.err.inj hc
  · simp at hc

/-- The only panic of the topic-info extractor is the unwrap panic. -/
theorem info_panic_msg (s : HElem) (m : String)
    (h : parse_v2ex_cell_item_topic_info s = Res.panic m) : m = unwrapMsg := by
  rcases info_cases s with hc | hc | ⟨v, hc⟩ <;> rw [h] at hc
  · exact Res.panic.inj hc
  · simp at hc
  · simp at hc

/-- Every outcome of the per-candidate loop body is an unwrap panic,
the timestamp parse error, or a success. -/
theorem extract_cases (c : HElem) :
    extractCellItem c = Res.panic unwrapMsg
    ∨ extractCellItem c = Res.err tsErrMsg
    ∨ ∃ t, extractCellItem c = Res.ok t := by
  simp only [extractCellItem]
  repeat' split
  all_goals first
    | exact Or.inl rfl
    | exact Or.inr (Or.inl rfl)
    | exact Or.inr (Or.inr ⟨_, rfl⟩)
    | (rename_i heq; right; left; rw [info_err_msg _ _ heq])
    | (rename_i heq; left; rw [info_panic_msg _ _ heq])

/-- The only error value of the per-candidate loop body is the
timestamp parse error. -/
theorem extract_err_msg (c : HElem) (e : String)
    (h : extractCellItem c = Res.err e) : e = tsErrMsg := by
  rcases extract_cases c with hc | hc | ⟨t, hc⟩ <;> rw [h] at hc
  · simp at hc
  · exact Res.err.inj hc
  · simp at hc

/-- The only panic of the per-candidate loop body is the unwrap panic. -/
theorem extract_panic_msg (c : HElem) (m : String)
    (h : extractCellItem c = Res.panic m) : m = unwrapMsg := by
  rcases extract_cases c with hc | hc | ⟨t, hc⟩ <;> rw [h] at hc
  · exact Res.panic.inj hc
  · simp at hc
  · simp at hc

/-- The only error value of the whole page loop is the timestamp parse
error. -/
theorem items_err_msg (cs : List HElem) (e : String)
    (h : parseCellItems cs = Res.err e) : e = tsErrMsg := by
  induction cs with
  | nil => simp [parseCellItems] at h
  | cons c rest ih =>
    unfold parseCellItems at h
    cases hc : extractCellItem c with
    | err e1 => rw [hc] at h; exact (Res.err.inj h) ▸ extract_err_msg c e1 hc
    | panic m => rw [hc] at h; simp at h
    | ok t =>
      rw [hc] at h
      cases hr : parseCellItems rest with
      | err e2 =>
        rw [hr] at h
        have he := Res.err.inj h
        subst he
        exact ih hr
      | panic m => rw [hr] at h; simp at h
      | ok ts => rw [hr] at h; simp at h

/-- The only panic of the whole page loop is the unwrap panic. -/
theorem items_panic_msg (cs : List HElem) (m : String)
    (h : parseCellItems cs = Res.panic m) : m = unwrapMsg := by
  induction cs with
  | nil => simp [parseCellItems] at h
  | cons c rest ih =>
    unfold parseCellItems at h
    cases hc : extractCellItem c with
    | err e1 => rw [hc] at h; simp at h
    | panic m1 => rw [hc] at h; exact (Res.panic.inj h) ▸ extract_panic_msg c m1 hc
    | ok t =>
      rw [hc] at h
      cases hr : parseCellItems rest with
      | err e2 => rw [hr] at h; simp at h
      | panic m1 =>
        rw [hr] at h
        have hm := Res.panic.inj h
        subst hm
        exact ih hr
      | ok ts => rw [hr] at h; simp at h

/-- A successfully extracted topic carries exactly the id derived from
its own permalink path by `topicIdFromHref`, with `0` as the fallback. -/
theorem extract_ok_id (c : HElem) (t : V2exTopic)
    (h : extractCellItem c = Res.ok t) :
    t.id = (topicIdFromHref t.short_url).getD 0 := by
  simp only [extractCellItem] at h
  repeat' split at h
  all_goals first
    | (have ht := Res.ok.inj h; subst ht; rfl)
    | simp_all

/-- A successful page parse pairs the candidates with the extracted
topics one-to-one, in order: the i-th topic comes from the i-th
candidate. -/
theorem items_forall2 (cs : List HElem) (ts : List V2exTopic)
    (h : parseCellItems cs = Res.ok ts) :
    List.Forall₂ (fun c t => extractCellItem c = Res.ok t) cs ts := by
  induction cs generalizing ts with
  | nil =>
    unfold parseCellItems at h
    have he := Res.ok.inj h
    subst he
    exact List.Forall₂.nil
  | cons c rest ih =>
    unfold parseCellItems at h
    cases hc : extractCellItem c with
    | err e => rw [hc] at h; simp at h
    | panic m => rw [hc] at h; simp at h
    | ok t =>
      rw [hc] at h
      cases hr : parseCellItems rest with
      | err e => rw [hr] at h; simp at h
      | panic m => rw [hr] at h; simp at h
      | ok ts1 =>
        rw [hr] at h
        have he := Res.ok.inj h
        subst he
        exact List.Forall₂.cons hc (ih ts1 hr)

/-- Each element of the right list of a `Forall₂` is related to some
element of the left list. -/
theorem forall2_exists_left {α β : Type} {R : α → β → Prop} :
    ∀ {cs : List α} {ts : List β}, List.Forall₂ R cs ts → ∀ t ∈ ts, ∃ c, R c t := by
  intro cs ts hf
  induction hf with
  | nil => intro t ht; simp at ht
  | cons hR _ ih =>
    intro t ht
    rcases List.mem_cons.mp ht with h1 | h2
    · exact ⟨_, h1 ▸ hR⟩
    · exact ih t h2

/-- If every candidate before `c` extracts successfully and `c` fails
with an error, the whole loop returns that error: no later candidate is
processed and no earlier topic is returned. -/
theorem items_err_append (pre : List HElem) (c : HElem) (rest : List HElem) (e : String)
    (hpre : ∀ x ∈ pre, ∃ t, extractCellItem x = Res.ok t)
    (hc : extractCellItem c = Res.err e) :
    parseCellItems (pre ++ c :: rest) = Res.err e := by
  induction pre with
  | nil =>
    simp only [List.nil_append]
    unfold parseCellItems
    rw [hc]
  | cons p ps ih =>
    obtain ⟨t, ht⟩ := hpre p (List.mem_cons_self p ps)
    simp only [List.cons_append]
    unfold parseCellItems
    rw [ht, ih (fun x hx => hpre x (List.mem_cons_of_mem p hx))]

/-- C1 (amended): if a Field Extractor fails for one candidate with an
error (for example an unparsable timestamp attribute), `parse_v2ex_page`
does not reject only that candidate: the question mark at crawler.rs
line 72 propagates the error, the whole-page extraction result is that
error, and the successfully extracted topics of the other candidates
are not returned. -/
theorem c1_field_failure_aborts_whole_page (pre : List HElem) (c : HElem)
    (rest : List HElem) (e : String)
    (hpre : ∀ x ∈ pre, ∃ t, extractCellItem x = Res.ok t)
    (hc : extractCellItem c = Res.err e) :
    parseCellItems (pre ++ c :: rest) = Res.err e :=
  items_err_append pre c rest e hpre hc

/-- Witness for C1: a good candidate, then a candidate with timestamp
attribute value `"not-a-date"`, then another good candidate: the page
loop returns the timestamp error. -/
theorem c1_field_failure_aborts_whole_page_witness :
    parseCellItems ([goodCand] ++ badTsCand :: [noNumCand]) = Res.err tsErrMsg :=
  c1_field_failure_aborts_whole_page [goodCand] badTsCand [noNumCand] tsErrMsg
    (by
      intro x hx
      rw [List.mem_singleton.mp hx]
      exact ⟨goodTopic, by decide⟩)
    (by decide)

/-- Counterexample to C1 as stated: on a page whose first candidate has
the unparsable timestamp `"not-a-date"` and whose second candidate is
fully well-formed, the whole-page extraction result IS an error; the
good candidate's topic is not returned. -/
theorem c1_counterexample :
    parse_v2ex_page docBadTsThenGood = Res.err tsErrMsg := by decide

/-- C2 (amended): extraction CAN crash: every missing structural
element (title link, topic-info fragment, category link, emphasis
element, nested link, `href` or `title` attribute) is an unwrap panic,
and only a present-but-malformed timestamp value is surfaced as an
error value; the foreground loop still never observes a propagated
error from the background cycle — a failed cycle delivers nothing and
the polling step leaves the state unchanged. -/
theorem c2_extraction_failure_modes :
    (∀ doc e, parse_v2ex_page doc = Res.err e → e = tsErrMsg)
    ∧ (∀ doc m, parse_v2ex_page doc = Res.panic m → m = unwrapMsg)
    ∧ (∀ app f, cycleMessage f = none → dataStep app (cycleMessage f) = app) := by
  refine ⟨?_, ?_, ?_⟩
  · intro doc e h
    unfold parse_v2ex_page at h
    exact items_err_msg _ e h
  · intro doc m h
    unfold parse_v2ex_page at h
    exact items_panic_msg _ m h
  · intro app f h
    rw [h]
    rfl

/-- Witness for C2: a transport-failed cycle delivers nothing and the
fresh application state survives the poll unchanged. -/
theorem c2_extraction_failure_modes_witness :
    dataStep AppState.new (cycleMessage FetchOutcome.transportError) = AppState.new :=
  c2_extraction_failure_modes.2.2 AppState.new FetchOutcome.transportError rfl

/-- Counterexample to C2 as stated: a page whose first candidate lacks
the topic-info fragment makes extraction panic (the unwrap at
crawler.rs line 71), not return an error value. -/
theorem c2_counterexample :
    parse_v2ex_page docNoInfoThenGood = Res.panic unwrapMsg := by decide

/-- C3 (amended): when extraction succeeds it returns one topic per
candidate in original document order — the i-th topic is extracted
from the i-th candidate, never re-sorted — but a candidate with no
title/permalink element is not skipped silently: the unwrap at
crawler.rs line 64 panics and aborts the whole page. -/
theorem c3_topics_in_document_order (doc : HElem) (ts : List V2exTopic)
    (h : parse_v2ex_page doc = Res.ok ts) :
    List.Forall₂ (fun c t => extractCellItem c = Res.ok t)
      (Html.selectAll doc selCellItem) ts := by
  unfold parse_v2ex_page at h
  exact items_forall2 _ ts h

/-- Witness for C3: the two candidates of `docGood` yield exactly the
two expected topics, in document order. -/
theorem c3_topics_in_document_order_witness :
    List.Forall₂ (fun c t => extractCellItem c = Res.ok t)
      (Html.selectAll docGood selCellItem) [goodTopic, noNumTopic] :=
  c3_topics_in_document_order docGood [goodTopic, noNumTopic] (by decide)

/-- Counterexample to C3 as stated: a page whose first candidate has no
title/permalink element panics instead of returning the remaining
candidate's topic. -/
theorem c3_counterexample :
    parse_v2ex_page docNoTitleThenGood = Res.panic unwrapMsg := by decide

/-- C4 (amended): the timestamp extractor parses the `title` attribute
with the fixed format `YYYY-MM-DD HH:MM:SS ±HHMM`; the value
`"2023-07-19 19:15:44 +0800"` yields the absolute instant
2023-07-19T19:15:44+08:00 (offset 480 minutes, Unix second
1689765344), and a present attribute whose value does not match the
format makes the extractor return an error value; an absent attribute,
however, causes an unwrap panic rather than an error result. -/
theorem c4_timestamp_parsing :
    chronoParseTs "2023-07-19 19:15:44 +0800" = some dtGood
    ∧ dtGood.offsetMinutes = 8 * 60
    ∧ dtGood.toUtcSeconds = 1689765344
    ∧ chronoParseTs "not-a-date" = none
    ∧ parse_v2ex_cell_item_topic_info badTsInfo = Res.err tsErrMsg :=
  ⟨by decide, by decide, by decide, by decide, by decide⟩

/-- Counterexample to C4 as stated: when the timestamp attribute is
absent the extractor does not fail with an error result — the unwrap
at crawler.rs line 124 panics. -/
theorem c4_counterexample :
    parse_v2ex_cell_item_topic_info noTitleAttrInfo = Res.panic unwrapMsg := by decide

/-- C5 (amended): a produced Topic's id is non-negative unless the
permalink's numeric path segment itself parses as a negative integer,
in which case the id is exactly that negative value. -/
theorem c5_id_nonneg_unless_negative_segment (doc : HElem) (ts : List V2exTopic)
    (h : parse_v2ex_page doc = Res.ok ts) :
    ∀ t ∈ ts, 0 ≤ t.id ∨ (topicIdFromHref t.short_url = some t.id ∧ t.id < 0) := by
  intro t ht
  unfold parse_v2ex_page at h
  obtain ⟨c, hct⟩ := forall2_exists_left (items_forall2 _ ts h) t ht
  have hid := extract_ok_id c t hct
  cases hsome : topicIdFromHref t.short_url with
  | none => left; rw [hid, hsome]; exact le_refl 0
  | some n =>
    have hidn : t.id = n := by rw [hid, hsome]; rfl
    by_cases hn : 0 ≤ n
    · left; rw [hidn]; exact hn
    · right
      constructor
      · rw [hidn]
      · rw [hidn]
        omega

/-- Witness for C5: applied to the well-formed fixture page. -/
theorem c5_id_nonneg_unless_negative_segment_witness :
    0 ≤ goodTopic.id
    ∨ (topicIdFromHref goodTopic.short_url = some goodTopic.id ∧ goodTopic.id < 0) :=
  c5_id_nonneg_unless_negative_segment docGood [goodTopic, noNumTopic]
    (by decide) goodTopic (by decide)

/-- Counterexample to C5 as stated: a candidate whose title link href
is the thread path with numeric segment `-1` is extracted successfully
with id `-1 < 0`. -/
theorem c5_counterexample :
    parse_v2ex_page docNeg = Res.ok [negTopic] ∧ negTopic.id < 0 :=
  ⟨by decide, by decide⟩

/-- C6: a Topic's id is derived from the numeric path segment after the
thread path prefix of its permalink: `/t/958255#reply0` yields id
958255, and a path whose segment does not parse as an i32 (such as
`/about`, which has no numeric segment) yields id 0 while the topic is
still accepted. -/
theorem c6_id_derivation :
    (∀ c t, extractCellItem c = Res.ok t →
      t.id = (topicIdFromHref t.short_url).getD 0)
    ∧ topicIdFromHref "/t/958255#reply0" = some 958255
    ∧ extractCellItem goodCand = Res.ok goodTopic
    ∧ goodTopic.id = 958255
    ∧ topicIdFromHref "/about" = none
    ∧ extractCellItem noNumCand = Res.ok noNumTopic
    ∧ noNumTopic.id = 0 :=
  ⟨extract_ok_id, by decide, by decide, by decide, by decide, by decide, by decide⟩

/-- Witness for C6: the id link applied to the no-numeric-segment
candidate. -/
theorem c6_id_derivation_witness :
    noNumTopic.id = (topicIdFromHref noNumTopic.short_url).getD 0 :=
  c6_id_derivation.1 noNumCand noNumTopic (by decide)

/-- C7: in a topic-info fragment with exactly one emphasis (strong)
element, the first and last emphasis elements coincide, so the
extracted author and last-reply user are the same (same name, same
sub-path). -/
theorem c7_single_emphasis_duplicates_author (s : HElem)
    (n : V2exNode) (su : V2exUser) (dt : DateTimeFixedOffset) (lu : V2exUser)
    (hone : (s.select (selTag "strong")).length = 1)
    (h : parse_v2ex_cell_item_topic_info s = Res.ok (n, su, dt, lu)) :
    su = lu := by
  cases hsel : s.select (selTag "strong") with
  | nil => rw [hsel] at hone; simp at hone
  | cons a l =>
    cases l with
    | cons b m => rw [hsel] at hone; simp at hone
    | nil =>
      simp only [parse_v2ex_cell_item_topic_info] at h
      rw [hsel] at h
      simp only [show ([a].head? : Option HElem) = some a from rfl,
        show ([a].getLast? : Option HElem) = some a from rfl] at h
      repeat' split at h
      all_goals simp_all

/-- Witness for C7: the one-emphasis fixture fragment yields the same
user (alice) as author and last replier. -/
theorem c7_single_emphasis_duplicates_author_witness : userAlice = userAlice :=
  c7_single_emphasis_duplicates_author oneStrongInfo nodeCareer userAlice dtGood
    userAlice (by decide) (by decide)

/-- C8: a cycle that fails at the transport, decode, or page-parse
step sends nothing to the consumer; the polling step leaves the
consumer state unchanged when nothing is received and replaces the
stored list exactly when a completed topic list is received. -/
theorem c8_failed_cycle_leaves_state_unchanged :
    cycleMessage FetchOutcome.transportError = none
    ∧ cycleMessage FetchOutcome.decodeError = none
    ∧ (∀ doc e, parse_v2ex_page doc = Res.err e →
        cycleMessage (FetchOutcome.ok doc) = none)
    ∧ (∀ app, dataStep app none = app)
    ∧ (∀ app ts, dataStep app (some ts) = app.set_data ts) := by
  refine ⟨rfl, rfl, ?_, fun app => rfl, fun app ts => rfl⟩
  intro doc e h
  simp only [cycleMessage]
  rw [h]

/-- Witness for C8: the fixture page whose parse fails with the
timestamp error delivers nothing. -/
theorem c8_failed_cycle_leaves_state_unchanged_witness :
    cycleMessage (FetchOutcome.ok docBadTsThenGood) = none :=
  c8_failed_cycle_leaves_state_unchanged.2.2.1 docBadTsThenGood tsErrMsg (by decide)

/-- C9: the Document Fetcher builds its client with the hardcoded
proxy URL and issues its single GET to the listing URL for the given
page; when proxy or client construction fails it returns an error
having issued no request. -/
theorem c9_fetcher_uses_hardcoded_proxy :
    PROXY_URL = "http://127.0.0.1:7890"
    ∧ pageUrl 1 = "https://www.v2ex.com/?p=1"
    ∧ (∀ env page, env.proxyOk PROXY_URL = false →
        get_v2ex_page env page = (Res.err "invalid proxy", []))
    ∧ (∀ env page, env.proxyOk PROXY_URL = true → env.clientBuildOk = false →
        get_v2ex_page env page = (Res.err "client build failed", []))
    ∧ (∀ env page, env.proxyOk PROXY_URL = true → env.clientBuildOk = true →
        get_v2ex_page env page = (env.send (pageUrl page), [pageUrl page])) := by
  refine ⟨rfl, by decide, ?_, ?_, ?_⟩
  · intro env page h1
    simp [get_v2ex_page, h1]
  · intro env page h1 h2
    simp [get_v2ex_page, h1, h2]
  · intro env page h1 h2
    simp [get_v2ex_page, h1, h2]

/-- Witness for C9: an environment that rejects every proxy URL makes
the fetch return an error with no request issued. -/
theorem c9_fetcher_uses_hardcoded_proxy_witness :
    get_v2ex_page ⟨fun _ => false, true, fun _ => Res.ok ""⟩ 1
      = (Res.err "invalid proxy", []) :=
  c9_fetcher_uses_hardcoded_proxy.2.2.1 ⟨fun _ => false, true, fun _ => Res.ok ""⟩ 1 rfl

/-- C10: one program run spawns exactly one fetch cycle, for page 1;
at most one topic list is ever sent on the channel, so however the
foreground loop interleaves its polls, `set_data` runs at most once
and the displayed list is never refreshed a second time. -/
theorem c10_single_cycle_single_delivery :
    spawnedCycles = [1]
    ∧ (∀ f, (channelMessages f).length ≤ 1)
    ∧ (∀ f recvs, (recvs.filterMap id).Sublist (channelMessages f) →
        setDataCount recvs ≤ 1) := by
  have hlen : ∀ f : FetchOutcome, (channelMessages f).length ≤ 1 := by
    intro f
    unfold channelMessages
    cases cycleMessage f <;> simp
  refine ⟨rfl, hlen, ?_⟩
  intro f recvs hsub
  exact le_trans hsub.length_le (hlen f)

/-- Witness for C10: a run whose only poll comes back empty performs
no `set_data` call. -/
theorem c10_single_cycle_single_delivery_witness :
    setDataCount [(none : Option (List V2exTopic))] ≤ 1 :=
  c10_single_cycle_single_delivery.2.2 FetchOutcome.transportError [none]
    (by simp [channelMessages, cycleMessage])
